import Mathlib

/-!
Verification of the request-routing and JSON response layer of the
`fetchai-ic-rust` backend canister (`src/ic/src/backend/src/lib.rs`).

The embedding models:
* JSON values (`Json`), their compact serde_json-style rendering
  (`Json.render`), and a total, fuel-indexed JSON text reader (`Json.parse`)
  standing for `serde_json::from_slice`'s syntax layer;
* the derived `Deserialize` impls of the three request structs
  (`GetBalanceRequestJson`, `GetUtxosRequestJson`, `SendRequestJson`):
  objects with unknown fields ignored, duplicate known fields rejected,
  missing or wrongly-typed fields rejected, and the serde_json quirk that a
  struct also deserializes from a JSON array of its fields in order;
* the derived `Serialize` impls of the response structs (field order as
  declared, `#[serde(rename)]` applied);
* the response envelope builder of `ic-http-certification`
  (`HttpResponse::builder`, `with_body`, `with_upgrade`, `build`,
  `build_update`);
* the two entry points `http_request` / `http_request_update`, the seven
  handlers, and the helpers `json_response` / `error_response`.

The two `f64` constants of the program (0.005 and 0.001) are never computed
with; they are modelled by their serde_json decimal rendering (`Json.other`
with literal text), which is what the serializer emits for them.
-/

namespace BtcCanister

/-- A JSON value. `natNum` holds the non-negative integer literals that fit
in a `u64` (the only integer width the program deserializes); `other` holds
any other number literal (negative, fractional, exponent or out of `u64`
range) as its source text, which is also how the program's two `f64`
constants are rendered. -/
inductive Json where
  | null
  | bool (b : Bool)
  | natNum (n : Nat)
  | other (lit : String)
  | str (s : String)
  | arr (elems : List Json)
  | obj (members : List (String × Json))

/-- Lower-case hexadecimal digit for code points below 0x10. -/
def hexDigit (n : Nat) : Char :=
  if n < 10 then Char.ofNat ('0'.toNat + n) else Char.ofNat ('a'.toNat + (n - 10))

/-- serde_json's escaping of one character inside a JSON string:
quote and backslash are backslash-escaped, the named control characters get
their short escapes, all other control characters below 0x20 get a
`\u00XX` escape, and everything else is emitted as itself. -/
def escapeChar (c : Char) : List Char :=
  if c = '"' then ['\\', '"']
  else if c = '\\' then ['\\', '\\']
  else if c = Char.ofNat 8 then ['\\', 'b']
  else if c = Char.ofNat 9 then ['\\', 't']
  else if c = Char.ofNat 10 then ['\\', 'n']
  else if c = Char.ofNat 12 then ['\\', 'f']
  else if c = Char.ofNat 13 then ['\\', 'r']
  else if c.toNat < 32 then
    ['\\', 'u', '0', '0', hexDigit (c.toNat / 16), hexDigit (c.toNat % 16)]
  else [c]

/-- A JSON string literal: quotes around the escaped characters. -/
def escapeString (s : String) : List Char :=
  '"' :: s.data.foldr (fun c acc => escapeChar c ++ acc) ['"']

mutual

/-- Compact rendering of a JSON value, as `serde_json::to_vec` emits it
(no whitespace, members in order). -/
def renderChars : Json → List Char
  | .null => ("null" : String).data
  | .bool true => ("true" : String).data
  | .bool false => ("false" : String).data
  | .natNum n => (Nat.repr n).data
  | .other lit => lit.data
  | .str s => escapeString s
  | .arr es => '[' :: renderElems es ++ [']']
  | .obj ms => '{' :: renderMembers ms ++ ['}']

/-- Comma-separated rendering of array elements. -/
def renderElems : List Json → List Char
  | [] => []
  | [e] => renderChars e
  | e :: e' :: es => renderChars e ++ ',' :: renderElems (e' :: es)

/-- Comma-separated rendering of object members, each `key:value`. -/
def renderMembers : List (String × Json) → List Char
  | [] => []
  | [(k, v)] => escapeString k ++ ':' :: renderChars v
  | (k, v) :: m :: ms => escapeString k ++ ':' :: renderChars v ++ ',' :: renderMembers (m :: ms)

end

/-- The serialized text of a JSON value. -/
def Json.render (j : Json) : String := ⟨renderChars j⟩

/-- JSON whitespace, as serde_json accepts it. -/
def isWsChar (c : Char) : Bool := c = ' ' || c = Char.ofNat 9 || c = Char.ofNat 10 || c = Char.ofNat 13

/-- Drop leading JSON whitespace. -/
def dropWs : List Char → List Char
  | [] => []
  | c :: cs => if isWsChar c then dropWs cs else c :: cs

/-- ASCII decimal digit test, by code point. -/
def isDigitChar (c : Char) : Bool := 48 ≤ c.toNat && c.toNat ≤ 57

/-- Split a leading run of decimal digits off the input. -/
def splitDigits : List Char → List Char × List Char
  | [] => ([], [])
  | c :: cs =>
    if isDigitChar c then
      let (ds, r) := splitDigits cs
      (c :: ds, r)
    else ([], c :: cs)

/-- Numeric value of a digit run. -/
def digitsVal (ds : List Char) : Nat :=
  ds.foldl (fun a c => a * 10 + (c.toNat - '0'.toNat)) 0

/-- Value of one hexadecimal digit, if it is one, by code point: digits
map to 0-9, `a`-`f` and `A`-`F` to 10-15. -/
def hexDigitVal (c : Char) : Option Nat :=
  let n := c.toNat
  if 48 ≤ n && n ≤ 57 then some (n - 48)
  else if 97 ≤ n && n ≤ 102 then some (n - 87)
  else if 65 ≤ n && n ≤ 70 then some (n - 55)
  else none

/-- The character named by a single-character JSON escape, if valid:
quote, backslash and slash stand for themselves, the five letter escapes
for their control characters. -/
def unescapeChar (c : Char) : Option Char :=
  if c = 'n' then some (Char.ofNat 10)
  else if c = 't' then some (Char.ofNat 9)
  else if c = 'r' then some (Char.ofNat 13)
  else if c = 'b' then some (Char.ofNat 8)
  else if c = 'f' then some (Char.ofNat 12)
  else if c = '"' || c = '\\' || c = '/' then some c
  else none

/-- Scan the body of a JSON string after its opening quote, processing
escapes, rejecting raw control characters, and stopping at the closing
quote. A `\uXXXX` escape must name a Unicode scalar value (surrogate pairs
are not modelled; no input of the development uses them). -/
def scanString (acc : List Char) : List Char → Option (String × List Char)
  | '"' :: rest => some (⟨acc.reverse⟩, rest)
  | '\\' :: 'u' :: a :: b :: c :: d :: rest =>
    match hexDigitVal a, hexDigitVal b, hexDigitVal c, hexDigitVal d with
    | some va, some vb, some vc, some vd =>
      let n := ((va * 16 + vb) * 16 + vc) * 16 + vd
      if n < 55296 || (57344 ≤ n && n < 1114112) then
        scanString (Char.ofNat n :: acc) rest
      else none
    | _, _, _, _ => none
  | '\\' :: e :: rest =>
    match unescapeChar e with
    | some ch => scanString (ch :: acc) rest
    | none => none
  | c :: rest => if c.toNat < 32 then none else scanString (c :: acc) rest
  | [] => none

/-- Scan an optional fraction part, returning its literal text. -/
def scanFrac : List Char → Option (List Char × List Char)
  | '.' :: r =>
    let (fs, r') := splitDigits r
    if fs.isEmpty then none else some ('.' :: fs, r')
  | cs => some ([], cs)

/-- Scan the tail of an exponent part after its `e`/`E` marker. -/
def scanExpTail (e : Char) (r : List Char) : Option (List Char × List Char) :=
  let (sgn, r1) : List Char × List Char :=
    match r with
    | '+' :: r' => (['+'], r')
    | '-' :: r' => (['-'], r')
    | _ => ([], r)
  let (es, r2) := splitDigits r1
  if es.isEmpty then none else some (e :: sgn ++ es, r2)

/-- Scan an optional exponent part, returning its literal text. -/
def scanExp : List Char → Option (List Char × List Char)
  | 'e' :: r => scanExpTail 'e' r
  | 'E' :: r => scanExpTail 'E' r
  | cs => some ([], cs)

/-- Scan a JSON number. Grammar as in RFC 8259 (no leading zeros, at least
one digit in each part). A plain non-negative integer within `u64` range
becomes `natNum`; anything else keeps its literal text in `other`. -/
def scanNumber (cs : List Char) : Option (Json × List Char) :=
  let (sign, cs1) : List Char × List Char :=
    match cs with
    | '-' :: r => (['-'], r)
    | _ => ([], cs)
  let (ds, cs2) := splitDigits cs1
  if ds.isEmpty then none
  else if 1 < ds.length && ds.headD ' ' = '0' then none
  else
    match scanFrac cs2 with
    | none => none
    | some (frac, cs3) =>
      match scanExp cs3 with
      | none => none
      | some (ex, cs4) =>
        if sign.isEmpty && frac.isEmpty && ex.isEmpty && digitsVal ds < 2 ^ 64 then
          some (.natNum (digitsVal ds), cs4)
        else some (.other ⟨sign ++ ds ++ frac ++ ex⟩, cs4)

mutual

/-- Read one JSON value off the input. Fuel only bounds the recursion; the
wrapper `Json.parse` supplies enough fuel for any input of its length. -/
def parseVal : Nat → List Char → Option (Json × List Char)
  | 0, _ => none
  | fuel + 1, cs =>
    match dropWs cs with
    | 'n' :: 'u' :: 'l' :: 'l' :: r => some (.null, r)
    | 't' :: 'r' :: 'u' :: 'e' :: r => some (.bool true, r)
    | 'f' :: 'a' :: 'l' :: 's' :: 'e' :: r => some (.bool false, r)
    | '"' :: r => (scanString [] r).map fun p => (.str p.1, p.2)
    | '[' :: r =>
      match dropWs r with
      | ']' :: r' => some (.arr [], r')
      | r1 => (parseItems fuel r1).map fun p => (.arr p.1, p.2)
    | '{' :: r =>
      match dropWs r with
      | '}' :: r' => some (.obj [], r')
      | r1 => (parseFields fuel r1).map fun p => (.obj p.1, p.2)
    | c :: r => if c = '-' || isDigitChar c then scanNumber (c :: r) else none
    | [] => none

/-- Read one-or-more comma-separated array elements and the closing bracket. -/
def parseItems : Nat → List Char → Option (List Json × List Char)
  | 0, _ => none
  | fuel + 1, cs =>
    match parseVal fuel cs with
    | none => none
    | some (v, r) =>
      match dropWs r with
      | ',' :: r' => (parseItems fuel r').map fun p => (v :: p.1, p.2)
      | ']' :: r' => some ([v], r')
      | _ => none

/-- Read one-or-more comma-separated object members and the closing brace. -/
def parseFields : Nat → List Char → Option (List (String × Json) × List Char)
  | 0, _ => none
  | fuel + 1, cs =>
    match dropWs cs with
    | '"' :: r =>
      match scanString [] r with
      | none => none
      | some (k, r1) =>
        match dropWs r1 with
        | ':' :: r2 =>
          match parseVal fuel r2 with
          | none => none
          | some (v, r3) =>
            match dropWs r3 with
            | ',' :: r4 => (parseFields fuel r4).map fun p => ((k, v) :: p.1, p.2)
            | '}' :: r4 => some ([(k, v)], r4)
            | _ => none
        | _ => none
    | _ => none

end

/-- The syntax layer of `serde_json::from_slice`: read one JSON document and
require that only whitespace follows it. The fuel `2 * length + 2` suffices
for any successful read, since at least one input character is consumed for
every two recursive calls. -/
def Json.parse (s : String) : Option Json :=
  match parseVal (2 * s.length + 2) s.data with
  | some (j, rest) => if (dropWs rest).isEmpty then some j else none
  | none => none

/-- A byte string is well-formed JSON when the reader accepts it. -/
def isValidJson (s : String) : Bool := (Json.parse s).isSome

/-- Request type of the `/get-balance` route (`#[derive(Deserialize)]`). -/
structure GetBalanceRequestJson where
  address : String
deriving DecidableEq

/-- Request type of the `/get-utxos` route (`#[derive(Deserialize)]`). -/
structure GetUtxosRequestJson where
  address : String
deriving DecidableEq

/-- Request type of the `/send` route (`#[derive(Deserialize)]`); the wire
names are `destinationAddress` and `amountInSatoshi`, the amount is a `u64`
(so the decoder enforces the range bound). -/
structure SendRequestJson where
  destination_address : String
  amount_in_satoshi : Nat
deriving DecidableEq

/-- Derived map deserialization of a one-string-field struct with field
name `field`: unknown keys are skipped, a duplicate of the known key or a
non-string value for it is an error, and the key must be present when the
members run out. -/
def decodeOneStrField (field : String) : List (String × Json) → Option String → Option String
  | [], acc => acc
  | (k, v) :: rest, acc =>
    if k = field then
      match acc, v with
      | none, .str s => decodeOneStrField field rest (some s)
      | _, _ => none
    else decodeOneStrField field rest acc

/-- `Deserialize` for `GetBalanceRequestJson` over parsed JSON values. A
JSON object is read by `decodeOneStrField`; serde_json additionally lets a
struct deserialize from a JSON array of its fields in declaration order,
with the arity checked exactly. Anything else is a type error. -/
def GetBalanceRequestJson.from_json : Json → Option GetBalanceRequestJson
  | .obj ms => (decodeOneStrField "address" ms none).map fun a => ⟨a⟩
  | .arr [.str s] => some ⟨s⟩
  | _ => none

/-- `Deserialize` for `GetUtxosRequestJson`; same shape as the balance
request. -/
def GetUtxosRequestJson.from_json : Json → Option GetUtxosRequestJson
  | .obj ms => (decodeOneStrField "address" ms none).map fun a => ⟨a⟩
  | .arr [.str s] => some ⟨s⟩
  | _ => none

/-- Derived map deserialization of `SendRequestJson`: tracks both fields,
skips unknown keys, rejects duplicates and wrong types, requires a `u64`
amount. -/
def decodeSendFields : List (String × Json) → Option String → Option Nat → Option SendRequestJson
  | [], some d, some a => some ⟨d, a⟩
  | [], _, _ => none
  | (k, v) :: rest, dAcc, aAcc =>
    if k = "destinationAddress" then
      match dAcc, v with
      | none, .str s => decodeSendFields rest (some s) aAcc
      | _, _ => none
    else if k = "amountInSatoshi" then
      match aAcc, v with
      | none, .natNum n => if n < 2 ^ 64 then decodeSendFields rest dAcc (some n) else none
      | _, _ => none
    else decodeSendFields rest dAcc aAcc

/-- `Deserialize` for `SendRequestJson` over parsed JSON values. -/
def SendRequestJson.from_json : Json → Option SendRequestJson
  | .obj ms => decodeSendFields ms none none
  | .arr [.str d, .natNum a] => if a < 2 ^ 64 then some ⟨d, a⟩ else none
  | _ => none

/-- `serde_json::from_slice::<GetBalanceRequestJson>`. -/
def from_slice_balance (body : String) : Option GetBalanceRequestJson :=
  (Json.parse body).bind GetBalanceRequestJson.from_json

/-- `serde_json::from_slice::<GetUtxosRequestJson>`. -/
def from_slice_utxos (body : String) : Option GetUtxosRequestJson :=
  (Json.parse body).bind GetUtxosRequestJson.from_json

/-- `serde_json::from_slice::<SendRequestJson>`. -/
def from_slice_send (body : String) : Option SendRequestJson :=
  (Json.parse body).bind SendRequestJson.from_json

/-- An `f64` constant of the program, represented by the decimal text that
serde_json renders for it (the program never computes with its floats). -/
structure FloatLit where
  lit : String
deriving DecidableEq

/-- Response type of `/get-balance` (`#[derive(Serialize)]`). -/
structure GetBalanceResponse where
  address : String
  balance : FloatLit
  unit : String

/-- Serialization of `GetBalanceResponse`, fields in declaration order. -/
def GetBalanceResponse.toJson (r : GetBalanceResponse) : Json :=
  .obj [("address", .str r.address), ("balance", .other r.balance.lit), ("unit", .str r.unit)]

/-- One UTXO of the `/get-utxos` response (`#[derive(Serialize)]`). -/
structure Utxo where
  txid : String
  vout : Nat
  value : Nat
  confirmations : Nat

/-- Serialization of `Utxo`, fields in declaration order. -/
def Utxo.toJson (u : Utxo) : Json :=
  .obj [("txid", .str u.txid), ("vout", .natNum u.vout), ("value", .natNum u.value),
    ("confirmations", .natNum u.confirmations)]

/-- Response type of `/send` (`#[derive(Serialize)]`, `tx_id` renamed to
`txId` on the wire). -/
structure SendResponse where
  success : Bool
  destination : String
  amount : Nat
  tx_id : String

/-- Serialization of `SendResponse`, fields in declaration order with the
rename applied. -/
def SendResponse.toJson (r : SendResponse) : Json :=
  .obj [("success", .bool r.success), ("destination", .str r.destination),
    ("amount", .natNum r.amount), ("txId", .str r.tx_id)]

/-- Response type of the welcome route (`#[derive(Serialize)]`). -/
structure WelcomeMessage where
  message : String

/-- Serialization of `WelcomeMessage`. -/
def WelcomeMessage.toJson (w : WelcomeMessage) : Json :=
  .obj [("message", .str w.message)]

/-- Response type of `/get-p2pkh-address` (`#[derive(Serialize)]`). -/
structure GetP2pkhAddressResponse where
  address : String

/-- Serialization of `GetP2pkhAddressResponse`. -/
def GetP2pkhAddressResponse.toJson (r : GetP2pkhAddressResponse) : Json :=
  .obj [("address", .str r.address)]

/-- Innermost record of the `/dummy-test` response (`is_test` renamed to
`isTest` on the wire). -/
structure TestData where
  id : Nat
  name : String
  value : FloatLit
  is_test : Bool

/-- Serialization of `TestData`, fields in declaration order. -/
def TestData.toJson (t : TestData) : Json :=
  .obj [("id", .natNum t.id), ("name", .str t.name), ("value", .other t.value.lit),
    ("isTest", .bool t.is_test)]

/-- Middle record of the `/dummy-test` response (`test_data` renamed to
`testData` on the wire). -/
structure DummyTestData where
  message : String
  timestamp : String
  test_data : TestData

/-- Serialization of `DummyTestData`, fields in declaration order. -/
def DummyTestData.toJson (d : DummyTestData) : Json :=
  .obj [("message", .str d.message), ("timestamp", .str d.timestamp),
    ("testData", d.test_data.toJson)]

/-- Response type of `/dummy-test` (`#[derive(Serialize)]`). -/
structure DummyTestResponse where
  status : String
  data : DummyTestData

/-- Serialization of `DummyTestResponse`. -/
def DummyTestResponse.toJson (r : DummyTestResponse) : Json :=
  .obj [("status", .str r.status), ("data", r.data.toJson)]

/-- Inbound request: URL string and raw body (`HttpRequest::url` /
`HttpRequest::body`). -/
structure HttpRequest where
  url : String
  body : String
deriving DecidableEq

/-- Query-call response: a body plus the optional upgrade flag
(`ic-http-certification`'s `HttpResponse`, restricted to the parts this
program sets). -/
structure HttpResponse where
  body : String
  upgrade : Option Bool
deriving DecidableEq

/-- Update-call response: the upgrade flag does not exist on this type
(`HttpUpdateResponse`). -/
structure HttpUpdateResponse where
  body : String
deriving DecidableEq

/-- Builder state for responses (`HttpResponse::builder()` defaults: empty
body, no upgrade flag). -/
structure HttpResponseBuilder where
  body : String := ""
  upgrade : Option Bool := none

/-- `HttpResponse::builder()`. -/
def HttpResponse.builder : HttpResponseBuilder := {}

/-- `.with_upgrade(flag)` on the builder. -/
def HttpResponseBuilder.with_upgrade (b : HttpResponseBuilder) (u : Bool) : HttpResponseBuilder :=
  { b with upgrade := some u }

/-- `.with_body(bytes)` on the builder. -/
def HttpResponseBuilder.with_body (b : HttpResponseBuilder) (s : String) : HttpResponseBuilder :=
  { b with body := s }

/-- `.build()`: produce the query-call response. -/
def HttpResponseBuilder.build (b : HttpResponseBuilder) : HttpResponse :=
  ⟨b.body, b.upgrade⟩

/-- `.build_update()`: produce the update-call response (no upgrade flag). -/
def HttpResponseBuilder.build_update (b : HttpResponseBuilder) : HttpUpdateResponse :=
  ⟨b.body⟩

/-- Rust's `str::contains`: does the pattern occur as a contiguous
substring? `leadsWith p s` checks that `p` is an initial segment of `s`. -/
def leadsWith : List Char → List Char → Bool
  | [], _ => true
  | _ :: _, [] => false
  | p :: ps, c :: cs => p == c && leadsWith ps cs

/-- Substring occurrence at any position (including the end for the empty
pattern). -/
def subOccurs (pat : List Char) : List Char → Bool
  | [] => leadsWith pat []
  | c :: cs => leadsWith pat (c :: cs) || subOccurs pat cs

/-- `url.contains(pat)` of the router. -/
def occursIn (s pat : String) : Bool := subOccurs pat.data s.data

/-- `serde_json::to_vec` on a JSON value tree. Serialization of these trees
is total; the error case of the Rust signature (reachable only through
serializers these types never produce, such as maps with non-string keys)
is retained in `json_response`'s interface. -/
def serde_to_vec (j : Json) : Option String := some j.render

/-- `json_response`: wrap the serialization outcome of the record in a
success envelope; a failed serialization falls back to the empty-object
literal (`unwrap_or_else(|_| b"{}".to_vec())`). The parameter is the
`serde_json::to_vec` result for the record being returned. -/
def json_response (ser : Option String) : HttpUpdateResponse :=
  (HttpResponse.builder.with_body (ser.getD "\x7b\x7d")).build_update

/-- `error_response`: wrap a plain message by direct string interpolation
into the fixed error shape — `format!` with no escaping of the message. -/
def error_response (message : String) : HttpUpdateResponse :=
  (HttpResponse.builder.with_body ("\x7b\"error\":\"" ++ message ++ "\"\x7d")).build_update

/-- `handle_welcome`: constant welcome record, serialized. -/
def handle_welcome : HttpUpdateResponse :=
  let welcome : WelcomeMessage := { message := "Welcome to the Dummy Bitcoin Canister API" }
  json_response (serde_to_vec welcome.toJson)

/-- `handle_get_balance`: decode the body as a balance request; on success
echo the address with the constant balance `0.005` and unit `"BTC"`; on
decode failure return the generic error response. -/
def handle_get_balance (req : HttpRequest) : HttpUpdateResponse :=
  match from_slice_balance req.body with
  | some request =>
    let response : GetBalanceResponse :=
      { address := request.address, balance := ⟨"0.005"⟩, unit := "BTC" }
    json_response (serde_to_vec response.toJson)
  | none => error_response "Invalid request body"

/-- `handle_get_utxos`: decode the body as a UTXO request (the decoded
value is discarded); on success return the fixed two-element UTXO list; on
decode failure return the generic error response. -/
def handle_get_utxos (req : HttpRequest) : HttpUpdateResponse :=
  match from_slice_utxos req.body with
  | some _request =>
    let utxos : List Utxo :=
      [{ txid := "dummy-txid-1", vout := 0, value := 25000, confirmations := 5 },
       { txid := "dummy-txid-2", vout := 1, value := 50000, confirmations := 3 }]
    json_response (serde_to_vec (.arr (utxos.map Utxo.toJson)))
  | none => error_response "Invalid request body"

/-- Rust's `(a..b).collect::<Vec<_>>()` for natural bounds. -/
def rustRange (a b : Nat) : List Nat := (List.range (b - a)).map (a + ·)

/-- `handle_get_fee_percentiles`: the collected range `(100..200)`,
serialized as a JSON array. -/
def handle_get_fee_percentiles : HttpUpdateResponse :=
  let fees : List Nat := rustRange 100 200
  json_response (serde_to_vec (.arr (fees.map Json.natNum)))

/-- `handle_get_p2pkh_address`: constant placeholder address. -/
def handle_get_p2pkh_address : HttpUpdateResponse :=
  let response : GetP2pkhAddressResponse := { address := "tb1qdummyaddressxyz1234567890" }
  json_response (serde_to_vec response.toJson)

/-- `handle_send`: decode the body as a send request; on success echo
destination and amount with `success = true` and the constant placeholder
transaction id; on decode failure return the generic error response. -/
def handle_send (req : HttpRequest) : HttpUpdateResponse :=
  match from_slice_send req.body with
  | some request =>
    let response : SendResponse :=
      { success := true, destination := request.destination_address,
        amount := request.amount_in_satoshi, tx_id := "dummy-txid-sent-1234567890" }
    json_response (serde_to_vec response.toJson)
  | none => error_response "Invalid request body"

/-- `handle_dummy_test`: constant nested diagnostic record. -/
def handle_dummy_test : HttpUpdateResponse :=
  let testData : TestData :=
    { id := 1, name := "Test Bitcoin Data", value := FloatLit.mk "0.001", is_test := true }
  let dummyData : DummyTestData :=
    { message := "This is a dummy response", timestamp := "2024-01-01T12:00:00.000Z",
      test_data := testData }
  let response : DummyTestResponse := { status := "success", data := dummyData }
  json_response (serde_to_vec response.toJson)

/-- The probe entry point `http_request` (`#[query]`): ignores the request
and returns the bare upgrade response. -/
def http_request (_req : HttpRequest) : HttpResponse :=
  (HttpResponse.builder.with_upgrade true).build

/-- The full entry point `http_request_update` (`#[update]`): ordered
substring dispatch on the URL, falling back to the welcome handler. -/
def http_request_update (req : HttpRequest) : HttpUpdateResponse :=
  let url := req.url
  if occursIn url "/get-balance" then handle_get_balance req
  else if occursIn url "/get-utxos" then handle_get_utxos req
  else if occursIn url "/get-current-fee-percentiles" then handle_get_fee_percentiles
  else if occursIn url "/get-p2pkh-address" then handle_get_p2pkh_address
  else if occursIn url "/send" then handle_send req
  else if occursIn url "/dummy-test" then handle_dummy_test
  else handle_welcome

/-- The third character of a character list, when it has one; used to
separate success bodies from the error body at a fixed position. -/
def third : List Char → Option Char
  | _ :: _ :: c :: _ => some c
  | _ => none

/-- Concrete escape of the balance request's first response key. -/
theorem escapeString_address :
    escapeString "address" = ['"', 'a', 'd', 'd', 'r', 'e', 's', 's', '"'] := by decide

/-- Concrete escape of the send response's first key. -/
theorem escapeString_success :
    escapeString "success" = ['"', 's', 'u', 'c', 'c', 'e', 's', 's', '"'] := by decide

/-- A balance success body has an `a` in third position. -/
theorem third_render_balance (S : String) :
    third (Json.render (Json.obj [("address", Json.str S), ("balance", Json.other "0.005"),
      ("unit", Json.str "BTC")])).data = some 'a' := rfl

/-- A send success body has an `s` in third position. -/
theorem third_render_send (D : String) (A : Nat) :
    third (Json.render (Json.obj [("success", Json.bool true), ("destination", Json.str D),
      ("amount", Json.natNum A), ("txId", Json.str "dummy-txid-sent-1234567890")])).data =
      some 's' := rfl

/-- The generic error body has an `e` in third position. -/
theorem third_error_literal :
    third ("\x7b\"error\":\"Invalid request body\"\x7d" : String).data = some 'e' := by decide

/-- A balance success body never coincides with the generic error body. -/
theorem balance_render_ne_error (S : String) :
    Json.render (Json.obj [("address", Json.str S), ("balance", Json.other "0.005"),
      ("unit", Json.str "BTC")]) ≠ "\x7b\"error\":\"Invalid request body\"\x7d" := by
  intro h
  have h3 := (third_render_balance S).symm.trans
    ((congrArg (fun s => third s.data) h).trans third_error_literal)
  exact absurd h3 (by decide)

/-- A send success body never coincides with the generic error body. -/
theorem send_render_ne_error (D : String) (A : Nat) :
    Json.render (Json.obj [("success", Json.bool true), ("destination", Json.str D),
      ("amount", Json.natNum A), ("txId", Json.str "dummy-txid-sent-1234567890")]) ≠
      "\x7b\"error\":\"Invalid request body\"\x7d" := by
  intro h
  have h3 := (third_render_send D A).symm.trans
    ((congrArg (fun s => third s.data) h).trans third_error_literal)
  exact absurd h3 (by decide)

/-- The fixed UTXO success body never coincides with the generic error body. -/
theorem utxos_render_ne_error :
    Json.render (Json.arr
      [Json.obj [("txid", Json.str "dummy-txid-1"), ("vout", Json.natNum 0),
        ("value", Json.natNum 25000), ("confirmations", Json.natNum 5)],
       Json.obj [("txid", Json.str "dummy-txid-2"), ("vout", Json.natNum 1),
        ("value", Json.natNum 50000), ("confirmations", Json.natNum 3)]]) ≠
      "\x7b\"error\":\"Invalid request body\"\x7d" := by decide

/-- C1: the full entry point dispatches by testing the URL against the
substring patterns `/get-balance`, `/get-utxos`,
`/get-current-fee-percentiles`, `/get-p2pkh-address`, `/send`,
`/dummy-test` in that order, invoking the handler of the first pattern the
URL contains and the welcome handler when it contains none; in particular a
URL containing both `/send` and `/dummy-test` (and no earlier pattern)
dispatches to the send handler. -/
theorem routing_first_match (req : HttpRequest) :
    (occursIn req.url "/get-balance" = true →
      http_request_update req = handle_get_balance req) ∧
    (occursIn req.url "/get-balance" = false → occursIn req.url "/get-utxos" = true →
      http_request_update req = handle_get_utxos req) ∧
    (occursIn req.url "/get-balance" = false → occursIn req.url "/get-utxos" = false →
      occursIn req.url "/get-current-fee-percentiles" = true →
      http_request_update req = handle_get_fee_percentiles) ∧
    (occursIn req.url "/get-balance" = false → occursIn req.url "/get-utxos" = false →
      occursIn req.url "/get-current-fee-percentiles" = false →
      occursIn req.url "/get-p2pkh-address" = true →
      http_request_update req = handle_get_p2pkh_address) ∧
    (occursIn req.url "/get-balance" = false → occursIn req.url "/get-utxos" = false →
      occursIn req.url "/get-current-fee-percentiles" = false →
      occursIn req.url "/get-p2pkh-address" = false → occursIn req.url "/send" = true →
      http_request_update req = handle_send req) ∧
    (occursIn req.url "/get-balance" = false → occursIn req.url "/get-utxos" = false →
      occursIn req.url "/get-current-fee-percentiles" = false →
      occursIn req.url "/get-p2pkh-address" = false → occursIn req.url "/send" = false →
      occursIn req.url "/dummy-test" = true →
      http_request_update req = handle_dummy_test) ∧
    (occursIn req.url "/get-balance" = false → occursIn req.url "/get-utxos" = false →
      occursIn req.url "/get-current-fee-percentiles" = false →
      occursIn req.url "/get-p2pkh-address" = false → occursIn req.url "/send" = false →
      occursIn req.url "/dummy-test" = false →
      http_request_update req = handle_welcome) ∧
    (occursIn req.url "/send" = true → occursIn req.url "/dummy-test" = true →
      occursIn req.url "/get-balance" = false → occursIn req.url "/get-utxos" = false →
      occursIn req.url "/get-current-fee-percentiles" = false →
      occursIn req.url "/get-p2pkh-address" = false →
      http_request_update req = handle_send req) := by
  refine ⟨?_, ?_, ?_, ?_, ?_, ?_, ?_, ?_⟩ <;> intros <;> simp [http_request_update, *]

/-- Witness for C1 at a URL containing both `/send` and `/dummy-test`. -/
theorem routing_first_match_witness :
    http_request_update ⟨"/send/dummy-test", ""⟩ = handle_send ⟨"/send/dummy-test", ""⟩ :=
  (routing_first_match ⟨"/send/dummy-test", ""⟩).2.2.2.2.2.2.2
    (by decide) (by decide) (by decide) (by decide) (by decide) (by decide)

/-- C2: on any URL containing `/get-balance`, a body that decodes with
string field `address = S` produces the JSON encoding of the record with
the address echoed, balance `0.005` and unit `"BTC"`. -/
theorem balance_route_success (url body S : String)
    (hurl : occursIn url "/get-balance" = true)
    (hdec : from_slice_balance body = some ⟨S⟩) :
    (http_request_update ⟨url, body⟩).body =
      Json.render (Json.obj [("address", Json.str S), ("balance", Json.other "0.005"),
        ("unit", Json.str "BTC")]) := by
  simp [http_request_update, hurl, handle_get_balance, hdec, json_response, serde_to_vec,
    GetBalanceResponse.toJson, HttpResponse.builder, HttpResponseBuilder.with_body,
    HttpResponseBuilder.build_update]

/-- Witness for C2 at the address `"abc"`. -/
theorem balance_route_success_witness :
    occursIn "/get-balance" "/get-balance" = true ∧
    from_slice_balance "\x7b\"address\":\"abc\"\x7d" = some ⟨"abc"⟩ ∧
    (http_request_update ⟨"/get-balance", "\x7b\"address\":\"abc\"\x7d"⟩).body =
      Json.render (Json.obj [("address", Json.str "abc"), ("balance", Json.other "0.005"),
        ("unit", Json.str "BTC")]) :=
  ⟨by decide, by decide,
    balance_route_success "/get-balance" "\x7b\"address\":\"abc\"\x7d" "abc"
      (by decide) (by decide)⟩

/-- C3: on each decode-requiring route, the response body is the generic
error text exactly when the body fails to decode; on decode success the
handler's success body is produced instead. The short-circuit of the
spec ("the handler body is not invoked") appears here as the response
being exactly `error_response "Invalid request body"`, which is built
without any of the handler's success data. -/
theorem decode_failure_short_circuits (url body : String) :
    (occursIn url "/get-balance" = true →
      (from_slice_balance body = none ↔
        (http_request_update ⟨url, body⟩).body = "\x7b\"error\":\"Invalid request body\"\x7d")) ∧
    (occursIn url "/get-balance" = false → occursIn url "/get-utxos" = true →
      (from_slice_utxos body = none ↔
        (http_request_update ⟨url, body⟩).body = "\x7b\"error\":\"Invalid request body\"\x7d")) ∧
    (occursIn url "/get-balance" = false → occursIn url "/get-utxos" = false →
      occursIn url "/get-current-fee-percentiles" = false →
      occursIn url "/get-p2pkh-address" = false → occursIn url "/send" = true →
      (from_slice_send body = none ↔
        (http_request_update ⟨url, body⟩).body = "\x7b\"error\":\"Invalid request body\"\x7d")) := by
  refine ⟨?_, ?_, ?_⟩
  · intro h1
    constructor
    · intro hn
      simp [http_request_update, h1, handle_get_balance, hn, error_response,
        HttpResponse.builder, HttpResponseBuilder.with_body, HttpResponseBuilder.build_update]
    · intro hb
      cases hd : from_slice_balance body with
      | none => rfl
      | some q =>
        exfalso
        simp [http_request_update, h1, handle_get_balance, hd, json_response, serde_to_vec,
          GetBalanceResponse.toJson, HttpResponse.builder, HttpResponseBuilder.with_body,
          HttpResponseBuilder.build_update] at hb
        exact balance_render_ne_error q.address hb
  · intro h1 h2
    constructor
    · intro hn
      simp [http_request_update, h1, h2, handle_get_utxos, hn, error_response,
        HttpResponse.builder, HttpResponseBuilder.with_body, HttpResponseBuilder.build_update]
    · intro hb
      cases hd : from_slice_utxos body with
      | none => rfl
      | some q =>
        exfalso
        simp [http_request_update, h1, h2, handle_get_utxos, hd, json_response, serde_to_vec,
          Utxo.toJson, HttpResponse.builder, HttpResponseBuilder.with_body,
          HttpResponseBuilder.build_update] at hb
        exact utxos_render_ne_error hb
  · intro h1 h2 h3 h4 h5
    constructor
    · intro hn
      simp [http_request_update, h1, h2, h3, h4, h5, handle_send, hn, error_response,
        HttpResponse.builder, HttpResponseBuilder.with_body, HttpResponseBuilder.build_update]
    · intro hb
      cases hd : from_slice_send body with
      | none => rfl
      | some q =>
        exfalso
        simp [http_request_update, h1, h2, h3, h4, h5, handle_send, hd, json_response,
          serde_to_vec, SendResponse.toJson, HttpResponse.builder,
          HttpResponseBuilder.with_body, HttpResponseBuilder.build_update] at hb
        exact send_render_ne_error q.destination_address q.amount_in_satoshi hb

/-- Witness for C3: a body missing the required field on the balance route
yields the generic error response. -/
theorem decode_failure_short_circuits_witness :
    occursIn "/get-balance" "/get-balance" = true ∧
    from_slice_balance "\x7b\x7d" = none ∧
    (http_request_update ⟨"/get-balance", "\x7b\x7d"⟩).body =
      "\x7b\"error\":\"Invalid request body\"\x7d" :=
  ⟨by decide, by decide,
    ((decode_failure_short_circuits "/get-balance" "\x7b\x7d").1 (by decide)).mp (by decide)⟩

/-- Counterexample to C4 as stated: a URL containing
`/get-current-fee-percentiles` but also `/get-balance` is routed to the
balance handler (checked earlier), so its response is not the fee list. -/
theorem fee_percentiles_claim_counterexample :
    occursIn "/get-balance/get-current-fee-percentiles" "/get-current-fee-percentiles" = true ∧
    (http_request_update ⟨"/get-balance/get-current-fee-percentiles", ""⟩).body ≠
      Json.render (Json.arr ((rustRange 100 200).map Json.natNum)) := by
  constructor
  · decide
  · decide

/-- C4 (amended): on any URL containing `/get-current-fee-percentiles` and
neither of the two earlier patterns `/get-balance` and `/get-utxos`, any
body yields the JSON encoding of the collected range `(100..200)`, which
has exactly 100 entries and value `100 + i` at every index `i`. -/
theorem fee_percentiles_route (url body : String)
    (h1 : occursIn url "/get-balance" = false)
    (h2 : occursIn url "/get-utxos" = false)
    (h3 : occursIn url "/get-current-fee-percentiles" = true) :
    (http_request_update ⟨url, body⟩).body =
      Json.render (Json.arr ((rustRange 100 200).map Json.natNum)) ∧
    (rustRange 100 200).length = 100 ∧
    (∀ i, i < 100 → (rustRange 100 200).getD i 0 = 100 + i) := by
  refine ⟨?_, by decide, by decide⟩
  simp [http_request_update, h1, h2, h3, handle_get_fee_percentiles, json_response,
    serde_to_vec, HttpResponse.builder, HttpResponseBuilder.with_body,
    HttpResponseBuilder.build_update]

/-- Witness for the amended C4 at the plain fee-percentiles path. -/
theorem fee_percentiles_route_witness :
    (http_request_update ⟨"/get-current-fee-percentiles", ""⟩).body =
      Json.render (Json.arr ((rustRange 100 200).map Json.natNum)) ∧
    (rustRange 100 200).length = 100 ∧
    (∀ i, i < 100 → (rustRange 100 200).getD i 0 = 100 + i) :=
  fee_percentiles_route "/get-current-fee-percentiles" "" (by decide) (by decide) (by decide)

/-- Counterexample to C5 as stated: a URL containing `/send` but also
`/get-balance` routes to the balance handler, whose decode of a valid send
body fails, so the response is not the send success body. -/
theorem send_claim_counterexample :
    occursIn "/get-balance/send" "/send" = true ∧
    from_slice_send "\x7b\"destinationAddress\":\"abc\",\"amountInSatoshi\":12345\x7d" =
      some ⟨"abc", 12345⟩ ∧
    (http_request_update
        ⟨"/get-balance/send", "\x7b\"destinationAddress\":\"abc\",\"amountInSatoshi\":12345\x7d"⟩).body ≠
      Json.render (Json.obj [("success", Json.bool true), ("destination", Json.str "abc"),
        ("amount", Json.natNum 12345), ("txId", Json.str "dummy-txid-sent-1234567890")]) := by
  refine ⟨by decide, by decide, by decide⟩

/-- C5 (amended): on any URL containing `/send` and none of the four
earlier patterns, a body that decodes with `destinationAddress = D` and
`amountInSatoshi = A` produces the JSON encoding of the send result:
success `true`, destination and amount echoed, and the constant placeholder
transaction id. -/
theorem send_route_success (url body D : String) (A : Nat)
    (h1 : occursIn url "/get-balance" = false)
    (h2 : occursIn url "/get-utxos" = false)
    (h3 : occursIn url "/get-current-fee-percentiles" = false)
    (h4 : occursIn url "/get-p2pkh-address" = false)
    (h5 : occursIn url "/send" = true)
    (hdec : from_slice_send body = some ⟨D, A⟩) :
    (http_request_update ⟨url, body⟩).body =
      Json.render (Json.obj [("success", Json.bool true), ("destination", Json.str D),
        ("amount", Json.natNum A), ("txId", Json.str "dummy-txid-sent-1234567890")]) := by
  simp [http_request_update, h1, h2, h3, h4, h5, handle_send, hdec, json_response,
    serde_to_vec, SendResponse.toJson, HttpResponse.builder, HttpResponseBuilder.with_body,
    HttpResponseBuilder.build_update]

/-- Witness for the amended C5 at the claim's own example, destination
`"abc"` and amount `12345`. -/
theorem send_route_success_witness :
    from_slice_send "\x7b\"destinationAddress\":\"abc\",\"amountInSatoshi\":12345\x7d" =
      some ⟨"abc", 12345⟩ ∧
    (http_request_update
        ⟨"/send", "\x7b\"destinationAddress\":\"abc\",\"amountInSatoshi\":12345\x7d"⟩).body =
      Json.render (Json.obj [("success", Json.bool true), ("destination", Json.str "abc"),
        ("amount", Json.natNum 12345), ("txId", Json.str "dummy-txid-sent-1234567890")]) :=
  ⟨by decide,
    send_route_success "/send" "\x7b\"destinationAddress\":\"abc\",\"amountInSatoshi\":12345\x7d"
      "abc" 12345 (by decide) (by decide) (by decide) (by decide) (by decide) (by decide)⟩

/-- Counterexample to C6 as stated: a URL containing `/get-utxos` but also
`/get-balance` routes to the balance handler, which accepts the valid
`address` body and returns the balance record, not the UTXO sequence. -/
theorem utxos_claim_counterexample :
    occursIn "/get-balance/get-utxos" "/get-utxos" = true ∧
    from_slice_utxos "\x7b\"address\":\"x\"\x7d" = some ⟨"x"⟩ ∧
    (http_request_update ⟨"/get-balance/get-utxos", "\x7b\"address\":\"x\"\x7d"⟩).body ≠
      Json.render (Json.arr
        [Json.obj [("txid", Json.str "dummy-txid-1"), ("vout", Json.natNum 0),
          ("value", Json.natNum 25000), ("confirmations", Json.natNum 5)],
         Json.obj [("txid", Json.str "dummy-txid-2"), ("vout", Json.natNum 1),
          ("value", Json.natNum 50000), ("confirmations", Json.natNum 3)]]) := by
  refine ⟨by decide, by decide, by decide⟩

/-- C6 (amended): on any URL containing `/get-utxos` and not the earlier
pattern `/get-balance`, every body that decodes as a UTXO request yields
the same fixed two-element UTXO sequence, independent of the decoded
address — so any two valid bodies produce identical responses. -/
theorem utxos_route_constant (url body S : String)
    (h1 : occursIn url "/get-balance" = false)
    (h2 : occursIn url "/get-utxos" = true)
    (hdec : from_slice_utxos body = some ⟨S⟩) :
    (http_request_update ⟨url, body⟩).body =
      Json.render (Json.arr
        [Json.obj [("txid", Json.str "dummy-txid-1"), ("vout", Json.natNum 0),
          ("value", Json.natNum 25000), ("confirmations", Json.natNum 5)],
         Json.obj [("txid", Json.str "dummy-txid-2"), ("vout", Json.natNum 1),
          ("value", Json.natNum 50000), ("confirmations", Json.natNum 3)]]) := by
  simp [http_request_update, h1, h2, handle_get_utxos, hdec, json_response, serde_to_vec,
    Utxo.toJson, HttpResponse.builder, HttpResponseBuilder.with_body,
    HttpResponseBuilder.build_update]

/-- Witness for the amended C6 at the address `"x"`. -/
theorem utxos_route_constant_witness :
    from_slice_utxos "\x7b\"address\":\"x\"\x7d" = some ⟨"x"⟩ ∧
    (http_request_update ⟨"/get-utxos", "\x7b\"address\":\"x\"\x7d"⟩).body =
      Json.render (Json.arr
        [Json.obj [("txid", Json.str "dummy-txid-1"), ("vout", Json.natNum 0),
          ("value", Json.natNum 25000), ("confirmations", Json.natNum 5)],
         Json.obj [("txid", Json.str "dummy-txid-2"), ("vout", Json.natNum 1),
          ("value", Json.natNum 50000), ("confirmations", Json.natNum 3)]]) :=
  ⟨by decide,
    utxos_route_constant "/get-utxos" "\x7b\"address\":\"x\"\x7d" "x"
      (by decide) (by decide) (by decide)⟩

/-- C7: when serialization of the output record fails, `json_response`
falls back to the empty-object literal, which is itself the rendering of
the empty JSON object and passes the JSON well-formedness check; and for
every record that does serialize, the body is exactly its JSON encoding —
so the encoder produces a well-formed body for every input. -/
theorem json_response_fallback :
    (json_response none).body = "\x7b\x7d" ∧
    Json.render (Json.obj []) = (json_response none).body ∧
    isValidJson (json_response none).body = true ∧
    (∀ j : Json, (json_response (serde_to_vec j)).body = Json.render j) :=
  ⟨rfl, rfl, by decide, fun _ => rfl⟩

/-- C8: the error constructor interpolates the message verbatim into the
fixed shape with no escaping; the fixed message used by the program yields
well-formed JSON, but a message containing a double quote yields a body the
JSON reader rejects. -/
theorem error_response_unescaped :
    (∀ M : String, (error_response M).body = "\x7b\"error\":\"" ++ M ++ "\"\x7d") ∧
    isValidJson (error_response "Invalid request body").body = true ∧
    isValidJson (error_response "a \" quote").body = false :=
  ⟨fun _ => rfl, by decide, by decide⟩

/-- C9: the probe entry point returns the upgrade response — empty body,
upgrade flag set — for every request, and its result does not depend on the
request at all (no routing happens). -/
theorem probe_entry_point (req : HttpRequest) :
    http_request req = { body := "", upgrade := some true } ∧
    (http_request req).body = "" ∧
    (http_request req).upgrade = some true ∧
    (∀ req' : HttpRequest, http_request req = http_request req') :=
  ⟨rfl, rfl, rfl, fun _ => rfl⟩

/-- Skipping lemma: the one-string-field decoder ignores members whose keys
differ from the target field. -/
theorem decodeOneStrField_skips (field : String) (extras : List (String × Json))
    (hx : ∀ kv ∈ extras, kv.1 ≠ field) (acc : Option String) :
    decodeOneStrField field extras acc = acc := by
  induction extras with
  | nil => rfl
  | cons kv rest ih =>
    obtain ⟨k, v⟩ := kv
    have hk : k ≠ field := hx (k, v) (by simp)
    simp only [decodeOneStrField, if_neg hk]
    exact ih (fun kv h => hx kv (by simp [h]))

/-- Skipping lemma: the send decoder ignores members whose keys are neither
of its two field names. -/
theorem decodeSendFields_skips (extras : List (String × Json))
    (hx : ∀ kv ∈ extras, kv.1 ≠ "destinationAddress" ∧ kv.1 ≠ "amountInSatoshi")
    (d : String) (a : Nat) :
    decodeSendFields extras (some d) (some a) = some ⟨d, a⟩ := by
  induction extras with
  | nil => rfl
  | cons kv rest ih =>
    obtain ⟨k, v⟩ := kv
    have hk := hx (k, v) (by simp)
    simp only [decodeSendFields, if_neg hk.1, if_neg hk.2]
    exact ih (fun kv h => hx kv (by simp [h]))

/-- C10: on every decode-requiring route, a JSON object carrying the
required fields with the right types plus arbitrary additional unknown
fields decodes successfully — unknown fields are silently ignored — and in
particular the routed balance request with an extra field produces the
normal success response, not the error response. -/
theorem unknown_fields_ignored :
    (∀ (S : String) (extras : List (String × Json)), (∀ kv ∈ extras, kv.1 ≠ "address") →
      GetBalanceRequestJson.from_json (Json.obj (("address", Json.str S) :: extras)) =
        some ⟨S⟩ ∧
      GetUtxosRequestJson.from_json (Json.obj (("address", Json.str S) :: extras)) =
        some ⟨S⟩) ∧
    (∀ (D : String) (A : Nat) (extras : List (String × Json)), A < 2 ^ 64 →
      (∀ kv ∈ extras, kv.1 ≠ "destinationAddress" ∧ kv.1 ≠ "amountInSatoshi") →
      SendRequestJson.from_json (Json.obj (("destinationAddress", Json.str D) ::
        ("amountInSatoshi", Json.natNum A) :: extras)) = some ⟨D, A⟩) ∧
    (http_request_update ⟨"/get-balance", "\x7b\"address\":\"x\",\"extra\":1\x7d"⟩).body =
      Json.render (Json.obj [("address", Json.str "x"), ("balance", Json.other "0.005"),
        ("unit", Json.str "BTC")]) := by
  refine ⟨?_, ?_, by decide⟩
  · intro S extras hx
    constructor
    · simp [GetBalanceRequestJson.from_json, decodeOneStrField,
        decodeOneStrField_skips "address" extras hx (some S)]
    · simp [GetUtxosRequestJson.from_json, decodeOneStrField,
        decodeOneStrField_skips "address" extras hx (some S)]
  · intro D A extras hA hx
    have hne : ("amountInSatoshi" : String) ≠ "destinationAddress" := by decide
    simp [SendRequestJson.from_json, decodeSendFields, hne, hA,
      decodeSendFields_skips extras hx D A]
    exact hA

/-- Witness for C10: one extra unknown field next to a valid `address`. -/
theorem unknown_fields_ignored_witness :
    GetBalanceRequestJson.from_json
      (Json.obj [("address", Json.str "x"), ("extra", Json.natNum 1)]) = some ⟨"x"⟩ :=
  ((unknown_fields_ignored.1 "x" [("extra", Json.natNum 1)] (by decide)).1)
